import Mathlib

/-!
Verification of the EchoStream shared-video synchronization server
(`src/server.py`, `src/redis_config.py`).

The Redis hash `vidsync:state` is modelled as a record of optional string
fields (a field is `none` when the key is absent from the hash); the numeric
fields `current_time` and `last_update_timestamp`, which the Python code
stores as decimal strings and parses back with `float`, are modelled by their
numeric value in `ℚ`.  Wall-clock reads (`time.time()`) become an explicit
`now : ℚ` parameter.  A failing Redis read (a raised `RedisError`) is
modelled by `none` at the read site.  The pub/sub messages published on
`vidsync:events` are modelled by the inductive `SyncEvent`, and each handler
returns the (possibly unchanged) store together with the list of events it
published and the list of messages it emitted directly to the issuer.
-/

namespace EchoStream

/-- The `vidsync:state` Redis hash: each field is `some v` when the key is
present with value `v`, `none` when absent.  `current_time` and
`last_update_timestamp` carry the numeric value of the stored decimal
string. -/
structure RawHash where
  video_file_url : Option String
  is_playing : Option String
  current_time : Option ℚ
  last_update_timestamp : Option ℚ
  controller_sid : Option String
deriving DecidableEq, Repr

/-- Messages published on the `SYNC_CHANNEL` (`vidsync:events`), after the
constant JSON envelope `{"event": name, "data": {...}}` is stripped. -/
inductive SyncEvent where
  | video_loaded (url : String) (sid : String)
  | controller_change (controller_sid : String)
  | sync_play (time : ℚ) (sid : String)
  | sync_pause (time : ℚ) (sid : String)
  | sync_seek (time : ℚ) (sid : String)
deriving DecidableEq, Repr

/-- The dictionary returned by `get_current_state`: the Python code copies the
raw hash and then overwrites or inserts the four keys `current_time`,
`is_playing`, `controller_sid` and `video_file_url`; the raw
`last_update_timestamp` entry is passed through untouched (absent iff absent
in the hash).  On a `RedisError` the function returns the empty dict, i.e.
every field `none`. -/
structure SnapDict where
  video_file_url : Option String
  is_playing : Option Bool
  current_time : Option ℚ
  last_update_timestamp : Option ℚ
  controller_sid : Option String
deriving DecidableEq, Repr

/-- The empty dict `{}` that `get_current_state` returns when the Redis read
raises. -/
def SnapDict.empty : SnapDict :=
  { video_file_url := none
    is_playing := none
    current_time := none
    last_update_timestamp := none
    controller_sid := none }

/-- Function `get_current_state` (`server.py` lines 42–63).  `read` is the result of
`r.hgetall(STATE_KEY)`: `none` models a raised `RedisError` (the store being
unavailable), `some raw` a successful read of hash `raw`.  `now` is the value
of `time.time()`.  Note the code adds the raw elapsed `now - last_update` with
no clamping. -/
def get_current_state (read : Option RawHash) (now : ℚ) : SnapDict :=
  match read with
  | none => SnapDict.empty
  | some raw =>
    let is_playing : Bool := raw.is_playing == some "1"
    let base_time : ℚ := raw.current_time.getD 0
    let last_update : ℚ := raw.last_update_timestamp.getD 0
    let authoritative_time : ℚ :=
      if is_playing then base_time + (now - last_update) else base_time
    { video_file_url := some (raw.video_file_url.getD "")
      is_playing := some is_playing
      current_time := some authoritative_time
      last_update_timestamp := raw.last_update_timestamp
      controller_sid := some (raw.controller_sid.getD "") }

/-- Function `is_controller` (`server.py` lines 86–90): `r.hget(STATE_KEY,
"controller_sid") == sid`.  `hget` yields `None` when the key is absent, which
compares unequal to any string `sid`. -/
def is_controller (raw : RawHash) (sid : String) : Bool :=
  raw.controller_sid == some sid

/-- The default hash written by `initialize_redis_state`
(`redis_config.py` lines 109–132): previous state deleted, then every field
set to its default. -/
def init_redis_state : RawHash :=
  { video_file_url := some ""
    is_playing := some "0"
    current_time := some 0
    last_update_timestamp := some 0
    controller_sid := some "" }

/-- Result of one socket.io handler: the state hash after the call, the list
of events published on the sync channel, in order, and the list of payloads
emitted directly back over the socket (to the issuer).  The play, pause and
seek handlers contain no `emit` call, so their `emits` component is always
empty. -/
structure HandlerResult where
  store : RawHash
  published : List SyncEvent
  emits : List SnapDict
deriving DecidableEq, Repr

/-- The Redis pipeline of `handle_play` (`server.py` lines 211–215): the three
`hset` calls execute as one contiguous batch. -/
def play_pipeline (raw : RawHash) (current_time now : ℚ) : RawHash :=
  { raw with
      is_playing := some "1"
      current_time := some current_time
      last_update_timestamp := some now }

/-- Handler `handle_play` (`server.py` lines 201–220).  `timeField` is
`data.get('time')`: `none` when the payload lacks a `time` key, in which case
the code falls back to `0.0`.  On a failed controller check the handler
returns at once: no write, no publish, no emit. -/
def handle_play (raw : RawHash) (sid : String) (timeField : Option ℚ)
    (now : ℚ) : HandlerResult :=
  if !(is_controller raw sid) then
    { store := raw, published := [], emits := [] }
  else
    let current_time := timeField.getD 0
    { store := play_pipeline raw current_time now
      published := [.sync_play current_time sid]
      emits := [] }

/-- Handler `handle_pause` (`server.py` lines 222–241): identical to `handle_play`
except it writes `is_playing = "0"` and publishes `sync_pause`. -/
def handle_pause (raw : RawHash) (sid : String) (timeField : Option ℚ)
    (now : ℚ) : HandlerResult :=
  if !(is_controller raw sid) then
    { store := raw, published := [], emits := [] }
  else
    let current_time := timeField.getD 0
    { store := { raw with
        is_playing := some "0"
        current_time := some current_time
        last_update_timestamp := some now }
      published := [.sync_pause current_time sid]
      emits := [] }

/-- Handler `handle_seek` (`server.py` lines 243–260): writes `current_time` and
`last_update_timestamp` only, leaving `is_playing` untouched, and publishes
`sync_seek`. -/
def handle_seek (raw : RawHash) (sid : String) (timeField : Option ℚ)
    (now : ℚ) : HandlerResult :=
  if !(is_controller raw sid) then
    { store := raw, published := [], emits := [] }
  else
    let current_time := timeField.getD 0
    { store := { raw with
        current_time := some current_time
        last_update_timestamp := some now }
      published := [.sync_seek current_time sid]
      emits := [] }

/-- Function `elect_new_controller` (`server.py` lines 65–84), success path.  `pick` is
the value returned by `r.srandmember(USER_SET_KEY)`: `none` when the set is
empty, otherwise `some` of a member.  Python truthiness: both `None` and the
empty string take the else branch, which writes and publishes `""`. -/
def elect_new_controller (raw : RawHash) (pick : Option String) :
    RawHash × List SyncEvent :=
  let new_controller_sid := pick.getD ""
  if new_controller_sid ≠ "" then
    ({ raw with controller_sid := some new_controller_sid },
     [.controller_change new_controller_sid])
  else
    ({ raw with controller_sid := some "" },
     [.controller_change ""])

/-- The contract of `r.srandmember` on the connected-session set: it returns
`none` exactly when the set is empty, and otherwise some member of the set. -/
def srandmemberSpec (users : List String) : Option String → Prop
  | none => users = []
  | some m => m ∈ users

/-- Handler `handle_connect` (`server.py` lines 175–183), success path: `sadd` the
session id to the user set and emit a snapshot to the new session; the state
hash is untouched. -/
def handle_connect (raw : RawHash) (users : List String) (sid : String)
    (now : ℚ) : RawHash × List String × List SnapDict :=
  (raw, users.insert sid, [get_current_state (some raw) now])

/-- Handler `handle_disconnect` (`server.py` lines 185–193), success path: `srem` the
session id from the user set first, then run the election only if the
departed session was the controller.  `pick` is the subsequent
`srandmember` draw (unused when no election runs). -/
def handle_disconnect (raw : RawHash) (users : List String) (sid : String)
    (pick : Option String) : RawHash × List String × List SyncEvent :=
  let users' := users.erase sid
  if is_controller raw sid then
    let (raw', evs) := elect_new_controller raw pick
    (raw', users', evs)
  else
    (raw, users', [])

/-- Route `upload_video` (`server.py` lines 123–171) from the point where the
resource is stored and its reference computed (the file-storage collaborator,
lines 125–138, is external to the synchronization engine): given the derived
`video_url` and the form field `sid`, the handler rejects with a structured
error when the sid is missing, and otherwise runs the five-field pipeline
reset and publishes `video_loaded` then `controller_change`. -/
def upload_video (video_url : String) (uploader_sid : String) (now : ℚ)
    (_raw : RawHash) : Except String (RawHash × List SyncEvent) :=
  if uploader_sid = "" then
    .error "No client SID"
  else
    .ok ({ video_file_url := some video_url
           is_playing := some "0"
           current_time := some 0
           last_update_timestamp := some now
           controller_sid := some uploader_sid },
         [.video_loaded video_url uploader_sid,
          .controller_change uploader_sid])

/-- Full server state: the `vidsync:state` hash plus the `vidsync:users` set
(modelled as a duplicate-free list via set-like insert and erase). -/
structure ServerState where
  store : RawHash
  users : List String
deriving DecidableEq, Repr

/-- One client-facing operation, with the external inputs each handler draws
during its run: the wall clock `now` and, for `disconnect`, the
`srandmember` draw used by a possible election. -/
inductive Op where
  | upload (url : String) (sid : String) (now : ℚ)
  | connect (sid : String) (now : ℚ)
  | disconnect (sid : String) (pick : Option String)
  | play (sid : String) (timeField : Option ℚ) (now : ℚ)
  | pause (sid : String) (timeField : Option ℚ) (now : ℚ)
  | seek (sid : String) (timeField : Option ℚ) (now : ℚ)
deriving DecidableEq, Repr

/-- Apply one operation to the server state, discarding published events and
emits (a failed upload leaves the state untouched, as the route returns a 400
before any write). -/
def applyOp (s : ServerState) : Op → ServerState
  | .upload url sid now =>
      match upload_video url sid now s.store with
      | .ok (raw, _) => { s with store := raw }
      | .error _ => s
  | .connect sid now =>
      let r := handle_connect s.store s.users sid now
      { store := r.1, users := r.2.1 }
  | .disconnect sid pick =>
      let r := handle_disconnect s.store s.users sid pick
      { store := r.1, users := r.2.1 }
  | .play sid t now => { s with store := (handle_play s.store sid t now).store }
  | .pause sid t now => { s with store := (handle_pause s.store sid t now).store }
  | .seek sid t now => { s with store := (handle_seek s.store sid t now).store }

/-- Apply a sequence of operations in order. -/
def applyOps (s : ServerState) (ops : List Op) : ServerState :=
  ops.foldl applyOp s

/-- The state at process start: `initialize_redis_state` has wiped the user
set and written the default hash. -/
def initServer : ServerState :=
  { store := init_redis_state, users := [] }

/-- Predicate: the stored `current_time` (the `baseTime` of the spec), when
present, is nonnegative. -/
def baseTimeNonneg (s : ServerState) : Prop :=
  ∀ q : ℚ, s.store.current_time = some q → 0 ≤ q

/-- Whether an operation carries a nonnegative time payload (a missing
`time` field counts: the handlers substitute `0.0`). -/
def opTimeOK : Op → Bool
  | .play _ t _ => decide (0 ≤ t.getD 0)
  | .pause _ t _ => decide (0 ≤ t.getD 0)
  | .seek _ t _ => decide (0 ≤ t.getD 0)
  | _ => true

/-- Progress of one in-flight `handle_play` invocation: before the
`is_controller` read, after the read succeeded, and after the handler
returned. -/
inductive PlayPhase where
  | idle
  | passedCheck
  | done
deriving DecidableEq, Repr

/-- A configuration of the interleaving model for `handle_play`: the shared
Redis hash together with the phase of one in-flight play invocation. -/
structure PlayConfig where
  store : RawHash
  phase : PlayPhase
deriving DecidableEq, Repr

/-- Atomic steps of the system while one `play` command from `sid` with
payload `t` is in flight.  Each Redis command is atomic on the server, but
the eventlet greenlet running the handler yields at every Redis round trip,
so other greenlets (an election or upload writing `controller_sid`) may run
between the `is_controller` read and the `pipe.execute()` write; `interfere`
is such a concurrent `hset` of `controller_sid`.  The three `hset` calls of
the pipeline travel in one batch and are a single step. -/
inductive PlayStep (sid : String) (t now : ℚ) : PlayConfig → PlayConfig → Prop
  | check (c : PlayConfig) :
      c.phase = .idle → is_controller c.store sid = true →
      PlayStep sid t now c { store := c.store, phase := .passedCheck }
  | checkFail (c : PlayConfig) :
      c.phase = .idle → is_controller c.store sid = false →
      PlayStep sid t now c { store := c.store, phase := .done }
  | write (c : PlayConfig) :
      c.phase = .passedCheck →
      PlayStep sid t now c { store := play_pipeline c.store t now, phase := .done }
  | interfere (c : PlayConfig) (other : String) :
      PlayStep sid t now c
        { store := { c.store with controller_sid := some other }, phase := c.phase }

/-- A sample paused state: video loaded, position 2 written at instant 1,
controller `U1`. -/
def sampleRaw : RawHash :=
  { video_file_url := some "/static/videos/a.mp4", is_playing := some "0",
    current_time := some 2, last_update_timestamp := some 1,
    controller_sid := some "U1" }

/-- A sample playing state: position 2 written at instant 1, controller
`U1`. -/
def sampleRawPlaying : RawHash :=
  { video_file_url := some "/static/videos/a.mp4", is_playing := some "1",
    current_time := some 2, last_update_timestamp := some 1,
    controller_sid := some "U1" }

/-- A playing state written at instant 10 with position 0, read back at the
skewed instant 5. -/
def skewRaw : RawHash :=
  { video_file_url := some "", is_playing := some "1",
    current_time := some 0, last_update_timestamp := some 10,
    controller_sid := some "" }

/-- A playing state whose controller `U1` issues two identical seeks. -/
def c9raw : RawHash :=
  { video_file_url := some "u", is_playing := some "1",
    current_time := some 0, last_update_timestamp := some 0,
    controller_sid := some "U1" }

/-- Initial store of the check/write race: `U1` is the controller. -/
def c3store0 : RawHash :=
  { video_file_url := some "/static/videos/a.mp4", is_playing := some "0",
    current_time := some 0, last_update_timestamp := some 0,
    controller_sid := some "U1" }

/-- Mid configuration of the race: `U1` has passed the `is_controller` check,
but a concurrent election has since written controller `U2`. -/
def c3mid : PlayConfig :=
  { store := { c3store0 with controller_sid := some "U2" }, phase := .passedCheck }

/-- Final configuration of the race: the pending pipeline write of the
deposed controller `U1` has landed. -/
def c3fin : PlayConfig :=
  { store := play_pipeline c3mid.store 5 100, phase := .done }

/-- The hash produced by a successful upload of `a.mp4` by `U1` at
instant 7. -/
def uploadedW : RawHash :=
  { video_file_url := some "/static/videos/a.mp4", is_playing := some "0",
    current_time := some 0, last_update_timestamp := some 7,
    controller_sid := some "U1" }

/-! Helper lemmas. -/

/-- One operation with a nonnegative time payload preserves nonnegativity of
the stored `current_time`. -/
theorem applyOp_baseTimeNonneg (s : ServerState) (op : Op)
    (hop : opTimeOK op = true) (hs : baseTimeNonneg s) :
    baseTimeNonneg (applyOp s op) := by
  cases op with
  | upload url sid now =>
    by_cases hsid : sid = ""
    · simpa [applyOp, upload_video, hsid] using hs
    · intro q hq
      simp [applyOp, upload_video, hsid] at hq
      simp [← hq]
  | connect sid now =>
    simpa [applyOp, handle_connect] using hs
  | disconnect sid pick =>
    intro q hq
    apply hs
    simp only [applyOp, handle_disconnect, elect_new_controller] at hq
    split at hq
    · split at hq <;> simpa using hq
    · simpa using hq
  | play sid t now =>
    intro q hq
    simp only [applyOp, handle_play, play_pipeline] at hq
    split at hq
    · exact hs q hq
    · simp at hq
      subst hq
      simpa [opTimeOK] using hop
  | pause sid t now =>
    intro q hq
    simp only [applyOp, handle_pause] at hq
    split at hq
    · exact hs q hq
    · simp at hq
      subst hq
      simpa [opTimeOK] using hop
  | seek sid t now =>
    intro q hq
    simp only [applyOp, handle_seek] at hq
    split at hq
    · exact hs q hq
    · simp at hq
      subst hq
      simpa [opTimeOK] using hop

/-- Folding operations with nonnegative time payloads preserves nonnegativity
of the stored `current_time`. -/
theorem applyOps_baseTimeNonneg (ops : List Op) (s : ServerState)
    (hs : baseTimeNonneg s) (h : ∀ op ∈ ops, opTimeOK op = true) :
    baseTimeNonneg (applyOps s ops) := by
  induction ops generalizing s with
  | nil => exact hs
  | cons op rest ih =>
    exact ih (applyOp s op)
      (applyOp_baseTimeNonneg s op (h op (List.mem_cons_self op rest)) hs)
      (fun o ho => h o (List.mem_cons_of_mem op ho))

/-! Claims. -/

/-- C1 (corrected): the reconciled position returned by `get_current_state`
equals `baseTime` when not playing, and `baseTime + (now − lastUpdateAt)` —
without clamping — when playing; whenever `now ≥ lastUpdateAt` the playing
result coincides with `baseTime + max(0, now − lastUpdateAt)` and the
reported position is nonnegative for any state with `baseTime ≥ 0`.  The
clamping and nonnegativity asserted by the original claim fail when clock
skew makes `now < lastUpdateAt`: see `C1_skew_counterexample`. -/
theorem C1_reconcile (raw : RawHash) (now : ℚ) :
    (get_current_state (some raw) now).current_time =
      some (if raw.is_playing == some "1"
        then raw.current_time.getD 0 + (now - raw.last_update_timestamp.getD 0)
        else raw.current_time.getD 0) ∧
    (raw.is_playing = some "1" → raw.last_update_timestamp.getD 0 ≤ now →
      (get_current_state (some raw) now).current_time =
        some (raw.current_time.getD 0 +
          max 0 (now - raw.last_update_timestamp.getD 0))) ∧
    (raw.last_update_timestamp.getD 0 ≤ now → 0 ≤ raw.current_time.getD 0 →
      ∀ q : ℚ, (get_current_state (some raw) now).current_time = some q →
        0 ≤ q) := by
  refine ⟨rfl, ?_, ?_⟩
  · intro hp hle
    have hmax : max 0 (now - raw.last_update_timestamp.getD 0) =
        now - raw.last_update_timestamp.getD 0 :=
      max_eq_right (by linarith)
    simp [get_current_state, hp, hmax]
  · intro hle hbase q hq
    rcases hb : (raw.is_playing == some "1") with _ | _ <;>
      simp [get_current_state, hb] at hq <;> linarith [hq]

/-- C1 witness: a playing state with `baseTime = 2`, `lastUpdateAt = 1`, read
at `now = 4`, reconciles to `2 + max(0, 4 − 1) = 5`. -/
theorem C1_reconcile_witness :
    sampleRawPlaying.is_playing = some "1" ∧
    sampleRawPlaying.last_update_timestamp.getD 0 ≤ 4 ∧
    (get_current_state (some sampleRawPlaying) 4).current_time =
      some (sampleRawPlaying.current_time.getD 0 +
        max 0 (4 - sampleRawPlaying.last_update_timestamp.getD 0)) :=
  ⟨rfl, by norm_num [sampleRawPlaying],
    (C1_reconcile sampleRawPlaying 4).2.1 rfl (by norm_num [sampleRawPlaying])⟩

/-- C1 counterexample: for the playing state `skewRaw` with `baseTime = 0`
and `lastUpdateAt = 10`, a read at the skewed instant `now = 5` returns
position `−5`, which is neither clamped to `baseTime` (the claimed value
`0 + max(0, 5 − 10) = 0`) nor nonnegative. -/
theorem C1_skew_counterexample :
    (get_current_state (some skewRaw) 5).current_time = some (-5) ∧
    skewRaw.current_time = some 0 ∧
    (0 : ℚ) + max 0 ((5 : ℚ) - 10) = 0 ∧
    ((-5 : ℚ) ≠ 0) ∧
    ((-5 : ℚ) < 0) := by
  refine ⟨?_, rfl, ?_, by norm_num, by norm_num⟩
  · simp [get_current_state, skewRaw]
    norm_num
  · norm_num

/-- C2 (confirmed): a play, pause or seek command from a session other than
the current controller leaves every field of the state unchanged, publishes
no event on the sync channel, and emits nothing back to the issuer. -/
theorem C2_noncontroller_noop (raw : RawHash) (sid : String) (t : Option ℚ)
    (now : ℚ) (h : raw.controller_sid ≠ some sid) :
    handle_play raw sid t now = { store := raw, published := [], emits := [] } ∧
    handle_pause raw sid t now = { store := raw, published := [], emits := [] } ∧
    handle_seek raw sid t now = { store := raw, published := [], emits := [] } := by
  have hb : is_controller raw sid = false := beq_eq_false_iff_ne.mpr h
  refine ⟨?_, ?_, ?_⟩ <;> simp [handle_play, handle_pause, handle_seek, hb]

/-- C2 witness: non-controller `U2` issuing play, pause or seek against a
state whose controller is `U1` changes nothing and produces no output. -/
theorem C2_noncontroller_noop_witness :
    sampleRaw.controller_sid ≠ some "U2" ∧
    (handle_play sampleRaw "U2" (some 3) 9 =
        { store := sampleRaw, published := [], emits := [] } ∧
      handle_pause sampleRaw "U2" (some 3) 9 =
        { store := sampleRaw, published := [], emits := [] } ∧
      handle_seek sampleRaw "U2" (some 3) 9 =
        { store := sampleRaw, published := [], emits := [] }) :=
  have h : sampleRaw.controller_sid ≠ some "U2" := by simp [sampleRaw]
  ⟨h, C2_noncontroller_noop sampleRaw "U2" (some 3) 9 h⟩

/-- C3 (corrected): the `is_controller` check and the pipeline write of a
play command are two separate atomic steps, not one unit: there is a
reachable execution in which, after the check has passed, a concurrent
controller change lands, and the pending pipeline write still executes —
so a write can land after the issuer has lost authority. -/
theorem C3_check_write_window :
    ∃ (sid other : String) (t now : ℚ) (c0 mid fin : PlayConfig),
      is_controller c0.store sid = true ∧
      c0.phase = PlayPhase.idle ∧
      Relation.ReflTransGen (PlayStep sid t now) c0 mid ∧
      mid.phase = PlayPhase.passedCheck ∧
      is_controller mid.store sid = false ∧
      mid.store.controller_sid = some other ∧
      PlayStep sid t now mid fin ∧
      fin.store = play_pipeline mid.store t now := by
  refine ⟨"U1", "U2", 5, 100, { store := c3store0, phase := .idle }, c3mid, c3fin,
    by simp [is_controller, c3store0], rfl, ?_, rfl,
    by simp [is_controller, c3mid, c3store0],
    by simp [c3mid, c3store0], PlayStep.write _ rfl, rfl⟩
  have s1 : PlayStep "U1" 5 100 { store := c3store0, phase := .idle }
      { store := c3store0, phase := .passedCheck } :=
    PlayStep.check _ rfl (by simp [is_controller, c3store0])
  have s2 : PlayStep "U1" 5 100 { store := c3store0, phase := .passedCheck } c3mid :=
    PlayStep.interfere _ "U2"
  exact Relation.ReflTransGen.tail
    (Relation.ReflTransGen.tail Relation.ReflTransGen.refl s1) s2

/-- C3 counterexample: the concrete interleaving refuting the original
claim.  From a store whose controller is `U1`, the play handler of `U1`
passes its check, an election then makes `U2` the controller, and the
handler's pipeline write still lands: the final store carries the write of
an issuer who had already lost authority. -/
theorem C3_race_counterexample :
    Relation.ReflTransGen (PlayStep "U1" 5 100)
      { store := c3store0, phase := .idle } c3mid ∧
    c3mid.phase = PlayPhase.passedCheck ∧
    is_controller c3mid.store "U1" = false ∧
    PlayStep "U1" 5 100 c3mid c3fin ∧
    c3fin.store.is_playing = some "1" ∧
    c3fin.store.current_time = some 5 ∧
    c3fin.store.controller_sid = some "U2" ∧
    is_controller c3store0 "U1" = true := by
  refine ⟨?_, rfl, by simp [is_controller, c3mid, c3store0], PlayStep.write _ rfl,
    ?_, ?_, ?_, by simp [is_controller, c3store0]⟩
  · have s1 : PlayStep "U1" 5 100 { store := c3store0, phase := .idle }
        { store := c3store0, phase := .passedCheck } :=
      PlayStep.check _ rfl (by simp [is_controller, c3store0])
    have s2 : PlayStep "U1" 5 100 { store := c3store0, phase := .passedCheck } c3mid :=
      PlayStep.interfere _ "U2"
    exact Relation.ReflTransGen.tail
      (Relation.ReflTransGen.tail Relation.ReflTransGen.refl s1) s2
  · simp [c3fin, play_pipeline]
  · simp [c3fin, play_pipeline]
  · simp [c3fin, c3mid, play_pipeline, c3store0]

/-- C4 (confirmed): a successful upload resets the full state — video url,
paused, position 0, timestamp `now`, controller the issuer — regardless of
the previous state, and publishes exactly `video_loaded{url, sid}` followed
by `controller_change{sid}`. -/
theorem C4_upload_reset (url sid : String) (now : ℚ) (prev st : RawHash)
    (evs : List SyncEvent)
    (h : upload_video url sid now prev = .ok (st, evs)) :
    st = { video_file_url := some url, is_playing := some "0",
           current_time := some 0, last_update_timestamp := some now,
           controller_sid := some sid } ∧
    evs = [.video_loaded url sid, .controller_change sid] := by
  by_cases hs : sid = ""
  · simp [upload_video, hs] at h
  · simp [upload_video, hs] at h
    exact ⟨h.1.symm, h.2.symm⟩

/-- C4 witness: uploading `a.mp4` as `U1` at instant 7 over the sample state
succeeds, yields the fully reset hash, and publishes `video_loaded` then
`controller_change`. -/
theorem C4_upload_reset_witness :
    upload_video "/static/videos/a.mp4" "U1" 7 sampleRaw =
      .ok (uploadedW,
        [.video_loaded "/static/videos/a.mp4" "U1", .controller_change "U1"]) ∧
    (uploadedW =
        { video_file_url := some "/static/videos/a.mp4", is_playing := some "0",
          current_time := some 0, last_update_timestamp := some 7,
          controller_sid := some "U1" } ∧
      [SyncEvent.video_loaded "/static/videos/a.mp4" "U1",
        SyncEvent.controller_change "U1"] =
        [.video_loaded "/static/videos/a.mp4" "U1", .controller_change "U1"]) :=
  have h : upload_video "/static/videos/a.mp4" "U1" 7 sampleRaw =
      .ok (uploadedW,
        [.video_loaded "/static/videos/a.mp4" "U1", .controller_change "U1"]) := by
    simp [upload_video, uploadedW]
  ⟨h, C4_upload_reset "/static/videos/a.mp4" "U1" 7 sampleRaw uploadedW
    [.video_loaded "/static/videos/a.mp4" "U1", .controller_change "U1"] h⟩

/-- C5 (confirmed): when the current controller disconnects, the departed
session is removed from the user set first and the election then writes
`pick.getD ""` as the new controller: the empty string exactly in the case
allowed by the `srandmember` contract on the post-removal set (no sessions
remain, or the drawn member is itself the empty string, hence a member), and
otherwise a member of the post-removal set; a `controller_change` event
carrying that value is published. -/
theorem C5_election (raw : RawHash) (users : List String) (sid : String)
    (pick : Option String) (hctl : is_controller raw sid = true)
    (hpick : srandmemberSpec (users.erase sid) pick) :
    (handle_disconnect raw users sid pick).1.controller_sid =
      some (pick.getD "") ∧
    ((pick.getD "" = "" ∧ users.erase sid = []) ∨
      pick.getD "" ∈ users.erase sid) ∧
    (handle_disconnect raw users sid pick).2.2 =
      [SyncEvent.controller_change (pick.getD "")] ∧
    (handle_disconnect raw users sid pick).2.1 = users.erase sid := by
  cases pick with
  | none =>
    refine ⟨?_, Or.inl ⟨rfl, hpick⟩, ?_, ?_⟩ <;>
      simp [handle_disconnect, hctl, elect_new_controller]
  | some m =>
    by_cases hm : m = ""
    · subst hm
      refine ⟨?_, Or.inr hpick, ?_, ?_⟩ <;>
        simp [handle_disconnect, hctl, elect_new_controller]
    · refine ⟨?_, Or.inr hpick, ?_, ?_⟩ <;>
        simp [handle_disconnect, hctl, elect_new_controller, hm]

/-- C5 witness: controller `U1` disconnects while `U2` remains and the draw
returns `U2`: the new controller is `U2`, a member of the remaining set, and
`controller_change{U2}` is published. -/
theorem C5_election_witness :
    is_controller sampleRaw "U1" = true ∧
    srandmemberSpec (["U2", "U1"].erase "U1") (some "U2") ∧
    ((handle_disconnect sampleRaw ["U2", "U1"] "U1" (some "U2")).1.controller_sid =
        some ((some "U2").getD "") ∧
      (((some "U2").getD "" = "" ∧ (["U2", "U1"].erase "U1") = []) ∨
        (some "U2").getD "" ∈ (["U2", "U1"].erase "U1")) ∧
      (handle_disconnect sampleRaw ["U2", "U1"] "U1" (some "U2")).2.2 =
        [SyncEvent.controller_change ((some "U2").getD "")] ∧
      (handle_disconnect sampleRaw ["U2", "U1"] "U1" (some "U2")).2.1 =
        ["U2", "U1"].erase "U1") :=
  have hctl : is_controller sampleRaw "U1" = true := by
    simp [is_controller, sampleRaw]
  have hpick : srandmemberSpec (["U2", "U1"].erase "U1") (some "U2") := by
    simp [srandmemberSpec, List.erase]
  ⟨hctl, hpick, C5_election sampleRaw ["U2", "U1"] "U1" (some "U2") hctl hpick⟩

/-- C6 (corrected): when the store read fails, `get_current_state` does not
propagate the failure, but it returns the empty record — every field absent —
rather than the populated default record the store is initialized with (which
reads back as empty url, not playing, position 0, timestamp 0, empty
controller). -/
theorem C6_fail_closed (now : ℚ) :
    get_current_state none now = SnapDict.empty ∧
    get_current_state (some init_redis_state) now =
      { video_file_url := some "", is_playing := some false,
        current_time := some 0, last_update_timestamp := some 0,
        controller_sid := some "" } :=
  ⟨rfl, by simp [get_current_state, init_redis_state]⟩

/-- C6 counterexample: the record returned on a failed read has no fields at
all — in particular no `videoUrl`, `isPlaying`, position or `controllerId`
entries — and differs from the snapshot of the initialized default state. -/
theorem C6_empty_counterexample :
    (get_current_state none 0).video_file_url = none ∧
    (get_current_state none 0).is_playing = none ∧
    (get_current_state none 0).current_time = none ∧
    (get_current_state none 0).controller_sid = none ∧
    get_current_state none 0 ≠ get_current_state (some init_redis_state) 0 := by
  refine ⟨rfl, rfl, rfl, rfl, ?_⟩
  simp [get_current_state, SnapDict.empty, init_redis_state, SnapDict.mk.injEq]

/-- C7 (corrected): starting from the initial state, every sequence of
operations whose play, pause and seek payloads are nonnegative (a missing
`time` field, substituted by `0.0`, included) keeps the stored `baseTime`
nonnegative.  The original claim fails for arbitrary accepted payloads: the
interface accepts negative times and writes them through, see
`C7_negative_seek_counterexample`. -/
theorem C7_baseTime_nonneg (ops : List Op)
    (h : ∀ op ∈ ops, opTimeOK op = true) :
    baseTimeNonneg (applyOps initServer ops) := by
  apply applyOps_baseTimeNonneg ops initServer
  · intro q hq
    simp [initServer, init_redis_state] at hq
    simp [← hq]
  · exact h

/-- C7 witness: connect, upload and a controller play at time 3 — all
payloads nonnegative — leave the stored `baseTime` nonnegative. -/
theorem C7_baseTime_nonneg_witness :
    baseTimeNonneg (applyOps initServer
      [.connect "U1" 0, .upload "/static/videos/a.mp4" "U1" 1,
       .play "U1" (some 3) 2]) := by
  apply C7_baseTime_nonneg
  intro op hop
  simp only [List.mem_cons, List.not_mem_nil, or_false] at hop
  rcases hop with rfl | rfl | rfl <;> simp [opTimeOK]

/-- C7 counterexample: from the initial state, `U1` connects, uploads (and so
becomes controller) and seeks to `−5`; the handler accepts the payload and
the reachable state stores `baseTime = −5 < 0`. -/
theorem C7_negative_seek_counterexample :
    (applyOps initServer
      [.connect "U1" 0, .upload "/static/videos/a.mp4" "U1" 1,
       .seek "U1" (some (-5)) 2]).store.current_time = some (-5) ∧
    ((-5 : ℚ) < 0) := by
  refine ⟨?_, by norm_num⟩
  simp [applyOps, applyOp, initServer, init_redis_state, handle_connect,
    upload_video, handle_seek, is_controller, List.insert]

/-- C8 (confirmed): a seek from the current controller sets `baseTime` to the
payload and `lastUpdateAt` to `now`, and leaves `isPlaying`, `videoUrl` and
`controllerId` exactly as they were — a seek from PLAYING stays PLAYING and a
seek from PAUSED stays PAUSED. -/
theorem C8_seek_frame (raw : RawHash) (sid : String) (t now : ℚ)
    (h : is_controller raw sid = true) :
    (handle_seek raw sid (some t) now).store.current_time = some t ∧
    (handle_seek raw sid (some t) now).store.last_update_timestamp = some now ∧
    (handle_seek raw sid (some t) now).store.is_playing = raw.is_playing ∧
    (handle_seek raw sid (some t) now).store.video_file_url =
      raw.video_file_url ∧
    (handle_seek raw sid (some t) now).store.controller_sid =
      raw.controller_sid := by
  simp [handle_seek, h]

/-- C8 witness: controller `U1` seeking to 3 at instant 9 on the sample
paused state. -/
theorem C8_seek_frame_witness :
    is_controller sampleRaw "U1" = true ∧
    ((handle_seek sampleRaw "U1" (some 3) 9).store.current_time = some 3 ∧
      (handle_seek sampleRaw "U1" (some 3) 9).store.last_update_timestamp =
        some 9 ∧
      (handle_seek sampleRaw "U1" (some 3) 9).store.is_playing =
        sampleRaw.is_playing ∧
      (handle_seek sampleRaw "U1" (some 3) 9).store.video_file_url =
        sampleRaw.video_file_url ∧
      (handle_seek sampleRaw "U1" (some 3) 9).store.controller_sid =
        sampleRaw.controller_sid) :=
  have h : is_controller sampleRaw "U1" = true := by
    simp [is_controller, sampleRaw]
  ⟨h, C8_seek_frame sampleRaw "U1" 3 9 h⟩

/-- C9 (corrected): reapplying `seek(t)` from the controller reproduces the
state of the first application except that `lastUpdateAt` is restamped with
the second call's instant; when the second application carries the same
instant the two states are exactly equal.  The original claim — no field
changes — fails whenever wall-clock time has advanced between the two calls:
see `C9_restamp_counterexample`. -/
theorem C9_seek_idem (raw : RawHash) (sid : String) (t now1 now2 : ℚ)
    (h : is_controller raw sid = true) :
    (handle_seek (handle_seek raw sid (some t) now1).store sid (some t)
        now2).store =
      { (handle_seek raw sid (some t) now1).store with
          last_update_timestamp := some now2 } ∧
    (now2 = now1 →
      (handle_seek (handle_seek raw sid (some t) now1).store sid (some t)
          now2).store =
        (handle_seek raw sid (some t) now1).store) := by
  have hc : raw.controller_sid = some sid := by simpa [is_controller] using h
  constructor
  · simp [handle_seek, is_controller, hc]
  · intro hnow
    subst hnow
    simp [handle_seek, is_controller, hc]

/-- C9 witness: two seeks to 10 by controller `U1`, both at instant 0, yield
literally the same state. -/
theorem C9_seek_idem_witness :
    is_controller c9raw "U1" = true ∧
    (handle_seek (handle_seek c9raw "U1" (some 10) 0).store "U1" (some 10)
        0).store =
      { (handle_seek c9raw "U1" (some 10) 0).store with
          last_update_timestamp := some 0 } ∧
    (handle_seek (handle_seek c9raw "U1" (some 10) 0).store "U1" (some 10)
        0).store =
      (handle_seek c9raw "U1" (some 10) 0).store :=
  have h : is_controller c9raw "U1" = true := by simp [is_controller, c9raw]
  ⟨h, (C9_seek_idem c9raw "U1" 10 0 0 h).1, (C9_seek_idem c9raw "U1" 10 0 0 h).2 rfl⟩

/-- C9 counterexample: controller `U1` seeks to 10 at instant 0 and again at
instant 1; the second application changes a field — `lastUpdateAt` moves from
0 to 1 — so the resulting states differ. -/
theorem C9_restamp_counterexample :
    (handle_seek (handle_seek c9raw "U1" (some 10) 0).store "U1" (some 10)
        1).store ≠
      (handle_seek c9raw "U1" (some 10) 0).store ∧
    (handle_seek (handle_seek c9raw "U1" (some 10) 0).store "U1" (some 10)
        1).store.last_update_timestamp = some 1 ∧
    (handle_seek c9raw "U1" (some 10) 0).store.last_update_timestamp =
      some 0 := by
  refine ⟨?_, ?_, ?_⟩ <;>
    simp [handle_seek, is_controller, c9raw, RawHash.mk.injEq]

/-- C10 (confirmed): a play, pause or seek from the controller whose payload
lacks a `time` field is not rejected: it is applied with time `0.0`, setting
`baseTime` to 0 and stamping `lastUpdateAt`, play and pause still switch
`isPlaying` to `"1"` and `"0"` respectively, and the corresponding sync event
is published with time 0. -/
theorem C10_default_time (raw : RawHash) (sid : String) (now : ℚ)
    (h : is_controller raw sid = true) :
    handle_play raw sid none now =
      { store :=
          { raw with
              is_playing := some "1"
              current_time := some 0
              last_update_timestamp := some now }
        published := [.sync_play 0 sid]
        emits := [] } ∧
    handle_pause raw sid none now =
      { store :=
          { raw with
              is_playing := some "0"
              current_time := some 0
              last_update_timestamp := some now }
        published := [.sync_pause 0 sid]
        emits := [] } ∧
    handle_seek raw sid none now =
      { store :=
          { raw with
              current_time := some 0
              last_update_timestamp := some now }
        published := [.sync_seek 0 sid]
        emits := [] } := by
  refine ⟨?_, ?_, ?_⟩ <;>
    simp [handle_play, handle_pause, handle_seek, play_pipeline, h]

/-- C10 witness: controller `U1` issuing play, pause and seek with no `time`
field at instant 9 against the sample state. -/
theorem C10_default_time_witness :
    is_controller sampleRaw "U1" = true ∧
    (handle_play sampleRaw "U1" none 9 =
        { store :=
            { sampleRaw with
                is_playing := some "1"
                current_time := some 0
                last_update_timestamp := some 9 }
          published := [.sync_play 0 "U1"]
          emits := [] } ∧
      handle_pause sampleRaw "U1" none 9 =
        { store :=
            { sampleRaw with
                is_playing := some "0"
                current_time := some 0
                last_update_timestamp := some 9 }
          published := [.sync_pause 0 "U1"]
          emits := [] } ∧
      handle_seek sampleRaw "U1" none 9 =
        { store :=
            { sampleRaw with
                current_time := some 0
                last_update_timestamp := some 9 }
          published := [.sync_seek 0 "U1"]
          emits := [] }) :=
  have h : is_controller sampleRaw "U1" = true := by
    simp [is_controller, sampleRaw]
  ⟨h, C10_default_time sampleRaw "U1" 9 h⟩

end EchoStream
